import Mathlib

/-!
AudioMark: a shallow embedding of `src/audio.js`

The `AudioMark` class of `audio.js` is a state machine over a Web Audio
graph.  We embed its observable state and its public operations as pure
Lean functions over an explicit state record.

Modelling conventions, chosen once and used throughout:

* JS numbers are modelled by `ℚ` (all arithmetic in the library is exact
  on the values that occur; no claim here concerns float rounding).
* The platform `AudioContext` is reduced to its clock (`currentTime`); a
  decoded `AudioBuffer` is reduced to its `duration` (the only attribute
  the library reads).
* Web Audio gain nodes are records holding the value last written by
  `setValueAtTime` and an optional pending `linearRampToValueAtTime`.
* Fallible platform calls are given an explicit success flag argument
  (`startOk` for `source.start`, `fetchOk` for fetch/decode), so a run of
  the model fixes the platform's behaviour; JS exceptions become `Option`
  results, `alert(...)` reporting is a no-op on engine state.
* `source.onended` cleanup callbacks are asynchronous platform events;
  they are outside this synchronous step model (no claim below depends on
  an `ended` event having fired).
* `setTimeout(f, d*1000)` in `fadeOut` is modelled by recording the pair
  (source id, delay in seconds) in `pendingStops`.
-/

/-- The three addressable volume buses of the library:
`'master'`, `'music'`, `'sfx'`. -/
inductive Bus where
  | master
  | music
  | sfx
deriving DecidableEq, Repr

/-- The `this.volumes` record (`audio.js` lines 17-21), scalars 0-100. -/
structure Volumes where
  master : ℚ
  music : ℚ
  sfx : ℚ
deriving DecidableEq, Repr

/-- Read `this.volumes[type]`. -/
def Volumes.get (v : Volumes) : Bus → ℚ
  | Bus.master => v.master
  | Bus.music => v.music
  | Bus.sfx => v.sfx

/-- Write `this.volumes[type] = x`. -/
def Volumes.set (v : Volumes) : Bus → ℚ → Volumes
  | Bus.master, x => { v with master := x }
  | Bus.music, x => { v with music := x }
  | Bus.sfx, x => { v with sfx := x }

/-- One scheduled `linearRampToValueAtTime`, together with the value and
time the ramp starts from (the preceding `setValueAtTime`). -/
structure Ramp where
  startValue : ℚ
  startTime : ℚ
  endValue : ℚ
  endTime : ℚ
deriving DecidableEq, Repr

/-- A gain node as the library uses one: the value last written with
`setValueAtTime`, plus an optional pending linear ramp. -/
structure GainNode where
  value : ℚ
  ramp : Option Ramp
deriving DecidableEq, Repr

/-- How a buffer-source node is routed to the destination.

* `viaInstGain g b`: through its own per-instance gain node `g` into
  bus `b` (the `_playAudio` wiring, lines 205-207);
* `viaFadeGain g`: re-routed by `fadeOut` through a fresh gain node `g`
  into `musicGain` (lines 373-378);
* `direct`: connected straight to `musicGain` with no per-instance gain
  node (the `resumeMusic` wiring, line 285). -/
inductive Route where
  | viaInstGain (g : GainNode) (bus : Bus)
  | viaFadeGain (g : GainNode)
  | direct
deriving DecidableEq, Repr

/-- The bus stage a routed signal enters on its way to `masterGain`. -/
def Route.bus : Route → Bus
  | Route.viaInstGain _ b => b
  | Route.viaFadeGain _ => Bus.music
  | Route.direct => Bus.music

/-- The scalar gain the instance's own gain stage currently applies
(meaningful when no ramp is pending on it). -/
def Route.gainValue : Route → ℚ
  | Route.viaInstGain g _ => g.value
  | Route.viaFadeGain g => g.value
  | Route.direct => 1

/-- The start value of the ramp pending on the instance's gain stage. -/
def Route.rampStart? : Route → Option ℚ
  | Route.viaInstGain g _ => g.ramp.map fun r => r.startValue
  | Route.viaFadeGain g => g.ramp.map fun r => r.startValue
  | Route.direct => none

/-- One `AudioBufferSourceNode` created by the library, with the wiring
and start parameters given to it. -/
structure SourceNode where
  id : Nat
  bufferName : String
  bufferDuration : ℚ
  loop : Bool
  startOffset : ℚ
  route : Route
  stopped : Bool
deriving DecidableEq, Repr

/-- The `this.currentMusic` record (`audio.js` lines 169-174). -/
structure CurrentMusic where
  source : Nat
  name : String
  startTime : ℚ
  loop : Bool
deriving DecidableEq, Repr

/-- The whole observable state of one `AudioMark` instance.  Fields mirror
the constructor (`audio.js` lines 10-37); the three bus gain values are
`none` before the gain nodes exist. -/
structure AudioMark where
  isInitialized : Bool
  currentTime : ℚ
  volumes : Volumes
  masterGainValue : Option ℚ
  musicGainValue : Option ℚ
  sfxGainValue : Option ℚ
  audioBuffers : List (String × ℚ)
  sources : List SourceNode
  activeSources : List Nat
  activeMusicSources : List Nat
  currentMusic : Option CurrentMusic
  isMusicPaused : Bool
  musicStartTime : ℚ
  musicPauseTime : ℚ
  nextId : Nat
  pendingStops : List (Nat × ℚ)
deriving DecidableEq, Repr

/-- Models `new AudioMark()` (constructor, lines 10-37). -/
def AudioMark.new : AudioMark where
  isInitialized := false
  currentTime := 0
  volumes := { master := 100, music := 100, sfx := 100 }
  masterGainValue := none
  musicGainValue := none
  sfxGainValue := none
  audioBuffers := []
  sources := []
  activeSources := []
  activeMusicSources := []
  currentMusic := none
  isMusicPaused := false
  musicStartTime := 0
  musicPauseTime := 0
  nextId := 0
  pendingStops := []

/-- Models `Map.get` on `this.audioBuffers` (names are unique in the map). -/
def lookupBuf (name : String) : List (String × ℚ) → Option ℚ
  | [] => none
  | (k, v) :: rest => if k = name then some v else lookupBuf name rest

/-- Models `Map.set` on `this.audioBuffers`: replaces any prior entry. -/
def setBuf (name : String) (dur : ℚ) : List (String × ℚ) → List (String × ℚ)
  | [] => [(name, dur)]
  | (k, v) :: rest =>
      if k = name then (name, dur) :: rest else (k, v) :: setBuf name dur rest

/-- Models `updateVolumes` (lines 351-361): a no-op before initialization, else it
writes `master/100` to the master node and pre-multiplied products to the
two bus nodes. -/
def AudioMark.updateVolumes (s : AudioMark) : AudioMark :=
  if !s.isInitialized then s
  else
    let masterVol := s.volumes.master / 100
    let musicVol := s.volumes.music / 100 * masterVol
    let sfxVol := s.volumes.sfx / 100 * masterVol
    { s with masterGainValue := some masterVol,
             musicGainValue := some musicVol,
             sfxGainValue := some sfxVol }

/-- Models `initialize()` (lines 43-72), success path; the platform context
creation is abstracted as succeeding.  Note the source calls
`updateVolumes` (line 64) before setting `isInitialized` (line 66), so
that call is a no-op and the freshly created gain nodes keep their Web
Audio default value 1. -/
def AudioMark.init (s : AudioMark) : Bool × AudioMark :=
  let s1 := { s with masterGainValue := some 1,
                     musicGainValue := some 1,
                     sfxGainValue := some 1 }
  let s2 := s1.updateVolumes
  (true, { s2 with isInitialized := true })

/-- Models `loadAudio(name, source)` (lines 79-109): `fetchOk` stands for the
fetch/decode succeeding, `duration` for the decoded buffer. -/
def AudioMark.loadAudio (s : AudioMark) (name : String) (duration : ℚ)
    (fetchOk : Bool) : Bool × AudioMark :=
  if !s.isInitialized then (false, s)
  else if !fetchOk then (false, s)
  else (true, { s with audioBuffers := setBuf name duration s.audioBuffers })

/-- Models `unloadAudio(name)` (lines 115-121). -/
def AudioMark.unloadAudio (s : AudioMark) (name : String) : Bool × AudioMark :=
  if (lookupBuf name s.audioBuffers).isSome then
    (true, { s with audioBuffers := s.audioBuffers.filter fun kv => !(kv.1 = name : Bool) })
  else (false, s)

/-- The options record a caller may pass; absent fields are `none`
(JS `undefined`), so the callee's destructuring defaults apply. -/
structure JsOptions where
  loop : Option Bool
  volume : Option ℚ
  fadeIn : Option ℚ
  stopCurrent : Option Bool
deriving DecidableEq, Repr

/-- The fully resolved options `_playAudio` receives (lines 135-140,
161-166). -/
structure PlayOpts where
  loop : Bool
  volume : ℚ
  fadeIn : ℚ
  type : Bus
deriving DecidableEq, Repr

/-- Models `_playAudio(name, gainNode, options)` (lines 186-241).  `startOk`
stands for `source.start(0)` being accepted by the platform; when it
throws, the `catch` returns `null`, but the node was already added to
`activeSources` (line 220) and is not removed. -/
def AudioMark.playAudio (s : AudioMark) (name : String) (bus : Bus)
    (options : PlayOpts) (startOk : Bool) : Option Nat × AudioMark :=
  if !s.isInitialized then (none, s)
  else
    match lookupBuf name s.audioBuffers with
    | none => (none, s)
    | some dur =>
        let sourceGain : GainNode :=
          if options.fadeIn > 0 then
            { value := 0,
              ramp := some { startValue := 0, startTime := s.currentTime,
                             endValue := options.volume,
                             endTime := s.currentTime + options.fadeIn } }
          else { value := options.volume, ramp := none }
        let src : SourceNode :=
          { id := s.nextId, bufferName := name, bufferDuration := dur,
            loop := options.loop, startOffset := 0,
            route := Route.viaInstGain sourceGain bus, stopped := false }
        let s1 : AudioMark :=
          { s with sources := s.sources ++ [src],
                   activeSources := s.activeSources ++ [src.id],
                   nextId := s.nextId + 1 }
        if startOk then (some src.id, s1) else (none, s1)

/-- Models `playSFX(name, options)` (lines 128-141). -/
def AudioMark.playSFX (s : AudioMark) (name : String) (options : JsOptions)
    (startOk : Bool) : Option Nat × AudioMark :=
  s.playAudio name Bus.sfx
    { loop := options.loop.getD false, volume := options.volume.getD 1,
      fadeIn := options.fadeIn.getD 0, type := Bus.sfx } startOk

/-- Mark each source whose id is listed as stopped
(`forEach(source => source.stop())`, tolerating double stops). -/
def markStopped (ids : List Nat) (l : List SourceNode) : List SourceNode :=
  l.map fun n => if n.id ∈ ids then { n with stopped := true } else n

/-- Models `stopMusic()` (lines 246-257): stops every active music source, clears
the tracking set, and nulls the whole `currentMusic` record. -/
def AudioMark.stopMusic (s : AudioMark) : AudioMark :=
  { s with sources := markStopped s.activeMusicSources s.sources,
           activeMusicSources := [],
           currentMusic := none,
           isMusicPaused := false }

/-- Models `playMusic(name, options)` (lines 148-180). -/
def AudioMark.playMusic (s : AudioMark) (name : String) (options : JsOptions)
    (startOk : Bool) : Option Nat × AudioMark :=
  let loop := options.loop.getD true
  let volume := options.volume.getD 1
  let fadeIn := options.fadeIn.getD 0
  let stopCurrent := options.stopCurrent.getD true
  let s0 := if stopCurrent && s.currentMusic.isSome then s.stopMusic else s
  let r := s0.playAudio name Bus.music
    { loop := loop, volume := volume, fadeIn := fadeIn, type := Bus.music } startOk
  match r.1 with
  | some id =>
      (some id,
       { r.2 with
           currentMusic := some { source := id, name := name,
                                  startTime := r.2.currentTime, loop := loop },
           isMusicPaused := false,
           activeMusicSources := r.2.activeMusicSources ++ [id] })
  | none => (none, r.2)

/-- Models `pauseMusic()` (lines 262-270): records the pause time, then delegates
to `stopMusic()` (which also nulls `currentMusic`), then sets the paused
flag. -/
def AudioMark.pauseMusic (s : AudioMark) : Bool × AudioMark :=
  if s.currentMusic.isSome && !s.isMusicPaused then
    let s1 := { s with musicPauseTime := s.currentTime }
    let s2 := s1.stopMusic
    (true, { s2 with isMusicPaused := true })
  else (false, s)

/-- Truncation toward zero of a rational, as JS `Math.trunc` /
the truncated quotient underlying the JS `%` operator. -/
def ratTrunc (q : ℚ) : ℤ := q.num.tdiv (q.den : ℤ)

/-- The JS `%` operator on numbers: `a - b * trunc(a / b)` (truncated
remainder, sign of the dividend).  JS yields NaN at `b = 0`; the model
yields `a` there, and every buffer duration used below is positive. -/
def jsMod (a b : ℚ) : ℚ := a - b * (ratTrunc (a / b) : ℚ)

/-- Models `resumeMusic()` (lines 275-309): requires a non-null `currentMusic`
with the paused flag set; recreates a source at offset
`elapsed % buffer.duration` when looping, `elapsed` otherwise, connected
straight to `musicGain`. -/
def AudioMark.resumeMusic (s : AudioMark) : Bool × AudioMark :=
  match s.currentMusic with
  | some cm =>
      if s.isMusicPaused then
        let elapsed := s.musicPauseTime - cm.startTime
        match lookupBuf cm.name s.audioBuffers with
        | some dur =>
            let offset := if cm.loop then jsMod elapsed dur else elapsed
            let src : SourceNode :=
              { id := s.nextId, bufferName := cm.name, bufferDuration := dur,
                loop := cm.loop, startOffset := offset,
                route := Route.direct, stopped := false }
            let cm2 : CurrentMusic :=
              { cm with source := src.id, startTime := s.currentTime - elapsed }
            (true,
             { s with
                 sources := s.sources ++ [src],
                 currentMusic := some cm2,
                 activeMusicSources := s.activeMusicSources ++ [src.id],
                 activeSources := s.activeSources ++ [src.id],
                 isMusicPaused := false,
                 nextId := s.nextId + 1 })
        | none => (false, s)
      else (false, s)
  | none => (false, s)

/-- Models `stopAll()` (lines 314-326). -/
def AudioMark.stopAll (s : AudioMark) : AudioMark :=
  { s with sources := markStopped s.activeSources s.sources,
           activeSources := [],
           activeMusicSources := [],
           currentMusic := none,
           isMusicPaused := false }

/-- Models `setVolume(type, volume)` (lines 333-337): clamp to [0, 100], store,
recompute the gain nodes. -/
def AudioMark.setVolume (s : AudioMark) (type : Bus) (volume : ℚ) : AudioMark :=
  let v := max 0 (min 100 volume)
  AudioMark.updateVolumes { s with volumes := s.volumes.set type v }

/-- Models `getVolume(type)` (lines 343-345). -/
def AudioMark.getVolume (s : AudioMark) (type : Bus) : ℚ := s.volumes.get type

/-- The gain value on the node with which `fadeOut` replaces an
instance's routing. -/
def fadeGainNode (t d : ℚ) : GainNode :=
  { value := 1,
    ramp := some { startValue := 1, startTime := t, endValue := 0, endTime := t + d } }

/-- Re-route the one source with the given id through a fade gain node. -/
def applyFade (id : Nat) (g : GainNode) (l : List SourceNode) : List SourceNode :=
  l.map fun n => if n.id = id then { n with route := Route.viaFadeGain g } else n

/-- Models `fadeOut(source, duration)` (lines 368-394): a no-op on a null source
or before initialization; otherwise disconnects the source from its
per-instance gain node, reconnects it through a fresh gain node into
`musicGain`, sets that gain to 1.0 and ramps it linearly to 0 over
`duration`, and schedules a deferred (wall-clock `setTimeout`) stop of
the source `duration` seconds after the call. -/
def AudioMark.fadeOut (s : AudioMark) (source : Option Nat) (duration : ℚ) :
    AudioMark :=
  match source with
  | none => s
  | some id =>
      if !s.isInitialized then s
      else
        { s with sources := applyFade id (fadeGainNode s.currentTime duration) s.sources,
                 pendingStops := s.pendingStops ++ [(id, duration)] }

/-- JS `x || d` on an optional number: `undefined` and `0` both fall back
to the default (the `options.volume || 1.0` idiom of line 414). -/
def jsOr (x : Option ℚ) (d : ℚ) : ℚ :=
  match x with
  | some v => if v = 0 then d else v
  | none => d

/-- Models `transitionMusic(newTrackName, transitionTime, options)`
(lines 402-424): fails on an unregistered name; otherwise captures the
current music source, starts the new track with `fadeIn = transitionTime`
and `stopCurrent: false`, then fades the captured source out over the
same duration. -/
def AudioMark.transitionMusic (s : AudioMark) (newTrackName : String)
    (transitionTime : ℚ) (options : JsOptions) (startOk : Bool) :
    Bool × AudioMark :=
  if !(lookupBuf newTrackName s.audioBuffers).isSome then (false, s)
  else
    let currentSource := s.currentMusic.map fun cm => cm.source
    let r := s.playMusic newTrackName
      { options with fadeIn := some transitionTime,
                     volume := some (jsOr options.volume 1),
                     stopCurrent := some false } startOk
    let s2 :=
      match currentSource with
      | some src => r.2.fadeOut (some src) transitionTime
      | none => r.2
    (true, s2)

/-- The record `getState()` returns (lines 447-458);
`audioContextState` is a platform string and is omitted. -/
structure Snapshot where
  isInitialized : Bool
  loadedAudio : List String
  activeSources : Nat
  activeMusicSources : Nat
  currentMusic : Option String
  isMusicPaused : Bool
  volumes : Volumes
deriving DecidableEq, Repr

/-- Models `getState()` (lines 447-458). -/
def AudioMark.getState (s : AudioMark) : Snapshot where
  isInitialized := s.isInitialized
  loadedAudio := s.audioBuffers.map fun kv => kv.1
  activeSources := s.activeSources.length
  activeMusicSources := s.activeMusicSources.length
  currentMusic := s.currentMusic.map fun cm => cm.name
  isMusicPaused := s.isMusicPaused
  volumes := s.volumes

/-- The value on the bus gain node addressed by `b`. -/
def AudioMark.busGainValue (s : AudioMark) : Bus → Option ℚ
  | Bus.master => s.masterGainValue
  | Bus.music => s.musicGainValue
  | Bus.sfx => s.sfxGainValue

/-- The product of the gain stages a bus's signal passes through between
an instance and the destination: the bus's own node, then `masterGain`
(graph wiring of lines 59-61). -/
def AudioMark.effectivePathGain (s : AudioMark) : Bus → Option ℚ
  | Bus.master => s.masterGainValue
  | Bus.music =>
      s.musicGainValue.bind fun g => s.masterGainValue.map fun m => g * m
  | Bus.sfx =>
      s.sfxGainValue.bind fun g => s.masterGainValue.map fun m => g * m

/-- Find a created source node by id. -/
def AudioMark.findSource (s : AudioMark) (id : Nat) : Option SourceNode :=
  s.sources.find? fun n => n.id = id

/-- An options record with every field absent (JS `{}`). -/
def optsNone : JsOptions :=
  { loop := none, volume := none, fadeIn := none, stopCurrent := none }

/-- A freshly constructed and initialized session. -/
def sReady : AudioMark := (AudioMark.new.init).2

/-- The state `sReady` with a 1-second buffer registered under `"a"`. -/
def sLoadedA : AudioMark := (sReady.loadAudio "a" 1 true).2

/-- The state `sLoadedA` with a further 3-second buffer registered under `"b"`. -/
def sLoadedAB : AudioMark := (sLoadedA.loadAudio "b" 3 true).2

/-- The state `sLoadedAB` after a successful `playMusic("a")`: a playing session. -/
def sPlayingA : AudioMark := (sLoadedAB.playMusic "a" optsNone true).2

/-- The state `sLoadedA` after a successful `playSFX("a", {volume: 0.5})`. -/
def sSfxHalf : AudioMark :=
  (sLoadedA.playSFX "a"
    { loop := none, volume := some (1 / 2), fadeIn := none, stopCurrent := none }
    true).2

/-- The music-session record for instance 0 playing the looping track
`"a"` started at host time 0 (also the record `sPlayingA` holds). -/
def cmA : CurrentMusic := { source := 0, name := "a", startTime := 0, loop := true }

/-- A paused looping music session written out directly: track `"a"` of
duration 2 started at host time 0, paused at host time 3.  (Such a state
has `currentMusic` set together with the paused flag; `pauseMusic` itself
never produces one — see the C1 theorem — so it is built directly.) -/
def sPausedLoop : AudioMark :=
  { AudioMark.new with
      isInitialized := true,
      audioBuffers := [("a", 2)],
      currentMusic := some cmA,
      isMusicPaused := true,
      musicPauseTime := 3,
      nextId := 1 }

/-- The instance of `sSfxHalf` as it stands after `fadeOut(instance, 2)`:
rerouted through the fresh fade gain node into the music bus. -/
def nodeAafterFade : SourceNode :=
  { id := 0, bufferName := "a", bufferDuration := 1, loop := false,
    startOffset := 0, route := Route.viaFadeGain (fadeGainNode 0 2),
    stopped := false }


/-! ## Basic facts about the model's operations -/

theorem updateVolumes_volumes (s : AudioMark) :
    (s.updateVolumes).volumes = s.volumes := by
  unfold AudioMark.updateVolumes
  split <;> rfl

theorem updateVolumes_isInitialized (s : AudioMark) :
    (s.updateVolumes).isInitialized = s.isInitialized := by
  unfold AudioMark.updateVolumes
  split <;> rfl

theorem updateVolumes_idem (s : AudioMark) :
    (s.updateVolumes).updateVolumes = s.updateVolumes := by
  unfold AudioMark.updateVolumes
  by_cases h : s.isInitialized <;> simp [h]

theorem stopMusic_isInitialized (s : AudioMark) :
    (s.stopMusic).isInitialized = s.isInitialized := rfl

theorem stopMusic_audioBuffers (s : AudioMark) :
    (s.stopMusic).audioBuffers = s.audioBuffers := rfl

theorem stopMusic_activeSources (s : AudioMark) :
    (s.stopMusic).activeSources = s.activeSources := rfl

theorem stopMusic_nextId (s : AudioMark) :
    (s.stopMusic).nextId = s.nextId := rfl

/-- A play that fails before the source is created (engine uninitialized,
or name unregistered) returns `null` and leaves the state untouched. -/
theorem playAudio_none (s : AudioMark) (name : String) (bus : Bus)
    (opts : PlayOpts) (ok : Bool)
    (h : s.isInitialized = false ∨ lookupBuf name s.audioBuffers = none) :
    s.playAudio name bus opts ok = (none, s) := by
  rcases h with h | h
  · simp [AudioMark.playAudio, h]
  · cases hI : s.isInitialized <;> simp [AudioMark.playAudio, hI, h]

/-- A play on which the platform rejects `source.start` returns `null`,
but the already-created source node stays in `activeSources`. -/
theorem playAudio_startFail (s : AudioMark) (name : String) (bus : Bus)
    (opts : PlayOpts) (dur : ℚ) (hinit : s.isInitialized = true)
    (hbuf : lookupBuf name s.audioBuffers = some dur) :
    (s.playAudio name bus opts false).1 = none ∧
    (s.playAudio name bus opts false).2.activeSources
      = s.activeSources ++ [s.nextId] := by
  simp [AudioMark.playAudio, hinit, hbuf]

/-! ## Claim theorems -/

/-- C9: on a freshly constructed session, before any `setVolume` call,
`getVolume` returns 100 for each of the three buses — the constructor's
defaults (lines 17-21) are 100, not 0 or 50. -/
theorem initial_volumes_100 :
    AudioMark.new.getVolume Bus.master = 100 ∧
    AudioMark.new.getVolume Bus.music = 100 ∧
    AudioMark.new.getVolume Bus.sfx = 100 :=
  ⟨rfl, rfl, rfl⟩

/-- C1 (failing run): from a playing session — `sPlayingA` reports current
track `"a"` and is not paused — `pauseMusic()` succeeds, but the
immediately following `resumeMusic()` returns `false`, and the snapshot
afterwards reports no current track and a still-paused session.  The
claimed pause/resume round-trip therefore fails: `pauseMusic` (line 265)
delegates to `stopMusic`, which nulls the whole `currentMusic` record
(line 255), so `resumeMusic`'s guard (line 276) can never pass, even
though `audiomark.md` documents `resumeMusic` as resuming the paused
track from where it was paused. -/
theorem pause_then_resume_fails_on_playing_session :
    sPlayingA.getState.currentMusic = some "a" ∧
    sPlayingA.getState.isMusicPaused = false ∧
    (sPlayingA.pauseMusic).1 = true ∧
    ((sPlayingA.pauseMusic).2.resumeMusic).1 = false ∧
    ((sPlayingA.pauseMusic).2.resumeMusic).2.getState.currentMusic = none ∧
    ((sPlayingA.pauseMusic).2.resumeMusic).2.getState.isMusicPaused = true :=
  ⟨rfl, rfl, rfl, rfl, rfl, rfl⟩

/-- C8: `playSFX` on a name absent from the buffer registry returns `null`
and the snapshot's `activeSources` count is unchanged (the `_playAudio`
guard at lines 192-196 fires before any node is created). -/
theorem playSFX_unregistered_spec (s : AudioMark) (name : String)
    (opts : JsOptions) (ok : Bool)
    (h : lookupBuf name s.audioBuffers = none) :
    (s.playSFX name opts ok).1 = none ∧
    (s.playSFX name opts ok).2.getState.activeSources
      = s.getState.activeSources := by
  unfold AudioMark.playSFX
  rw [playAudio_none _ _ _ _ _ (Or.inr h)]
  exact ⟨rfl, rfl⟩

/-- C8 witness: `"zzz"` is not registered in `sLoadedA`, and the property
holds there. -/
theorem playSFX_unregistered_witness :
    lookupBuf "zzz" sLoadedA.audioBuffers = none ∧
    ((sLoadedA.playSFX "zzz" optsNone true).1 = none ∧
     (sLoadedA.playSFX "zzz" optsNone true).2.getState.activeSources
       = sLoadedA.getState.activeSources) :=
  ⟨rfl, playSFX_unregistered_spec sLoadedA "zzz" optsNone true rfl⟩

/-- C3 (counterexample): when the platform rejects `source.start` —
`playSFX("a")` on `sLoadedA` with the start refused — the call does
return `null`, but `activeSources` is *not* left as it was: the node was
added at line 220, before `start` at line 234, and the `catch` (lines
237-240) does not remove it. -/
theorem play_start_failure_grows_activeSources_cex :
    (sLoadedA.playSFX "a" optsNone false).1 = none ∧
    (sLoadedA.playSFX "a" optsNone false).2.activeSources
      = sLoadedA.activeSources ++ [0] ∧
    (sLoadedA.playSFX "a" optsNone false).2.activeSources
      ≠ sLoadedA.activeSources := by
  refine ⟨rfl, rfl, ?_⟩
  show [0] ≠ ([] : List Nat)
  simp

/-- C3 (amended): a `playSFX`/`playMusic` call that fails because the
engine is uninitialized or the name is unregistered returns `null` and
leaves `activeSources` exactly as before (for `playSFX`, the whole state);
a call that fails because the platform rejects starting playback still
returns `null` — never an escalated fault — but leaves the just-created
instance in `activeSources` (it stays there until its `ended` callback or
a `stopAll`). -/
theorem play_failure_leaves_engine_state_amended (s : AudioMark)
    (name : String) (opts : JsOptions) (ok : Bool) (dur : ℚ) :
    ((s.isInitialized = false ∨ lookupBuf name s.audioBuffers = none) →
       s.playSFX name opts ok = (none, s)) ∧
    ((s.isInitialized = false ∨ lookupBuf name s.audioBuffers = none) →
       (s.playMusic name opts ok).1 = none ∧
       (s.playMusic name opts ok).2.activeSources = s.activeSources) ∧
    (s.isInitialized = true → lookupBuf name s.audioBuffers = some dur →
       (s.playSFX name opts false).1 = none ∧
       (s.playSFX name opts false).2.activeSources
         = s.activeSources ++ [s.nextId]) ∧
    (s.isInitialized = true → lookupBuf name s.audioBuffers = some dur →
       (s.playMusic name opts false).1 = none ∧
       (s.playMusic name opts false).2.activeSources
         = s.activeSources ++ [s.nextId]) := by
  refine ⟨?_, ?_, ?_, ?_⟩
  · intro h
    unfold AudioMark.playSFX
    rw [playAudio_none _ _ _ _ _ h]
  · intro h
    unfold AudioMark.playMusic
    by_cases hc : (opts.stopCurrent.getD true && s.currentMusic.isSome) = true
    · have h' : (s.stopMusic).isInitialized = false ∨
          lookupBuf name (s.stopMusic).audioBuffers = none := h
      simp only [hc, if_true, playAudio_none _ _ _ _ _ h']
      exact ⟨trivial, rfl⟩
    · simp only [Bool.not_eq_true] at hc
      simp only [hc, Bool.false_eq_true, if_false, playAudio_none _ _ _ _ _ h]
      exact ⟨trivial, trivial⟩
  · intro hinit hbuf
    exact playAudio_startFail s name Bus.sfx _ dur hinit hbuf
  · intro hinit hbuf
    unfold AudioMark.playMusic
    by_cases hc : (opts.stopCurrent.getD true && s.currentMusic.isSome) = true
    · have h1 := playAudio_startFail (s.stopMusic) name Bus.music
        { loop := opts.loop.getD true, volume := opts.volume.getD 1,
          fadeIn := opts.fadeIn.getD 0, type := Bus.music } dur hinit hbuf
      rcases hp : (s.stopMusic).playAudio name Bus.music
          { loop := opts.loop.getD true, volume := opts.volume.getD 1,
            fadeIn := opts.fadeIn.getD 0, type := Bus.music } false with ⟨r1, r2⟩
      rw [hp] at h1
      simp only [hc, if_true, hp]
      simp only at h1
      rw [h1.1]
      exact ⟨rfl, h1.2⟩
    · simp only [Bool.not_eq_true] at hc
      have h1 := playAudio_startFail s name Bus.music
        { loop := opts.loop.getD true, volume := opts.volume.getD 1,
          fadeIn := opts.fadeIn.getD 0, type := Bus.music } dur hinit hbuf
      rcases hp : s.playAudio name Bus.music
          { loop := opts.loop.getD true, volume := opts.volume.getD 1,
            fadeIn := opts.fadeIn.getD 0, type := Bus.music } false with ⟨r1, r2⟩
      rw [hp] at h1
      simp only [hc, Bool.false_eq_true, if_false, hp]
      simp only at h1
      rw [h1.1]
      exact ⟨rfl, h1.2⟩

/-- C3 witness: both failure modes at concrete inputs — an unregistered
name on `sLoadedA`, and a platform-rejected start of the registered
`"a"`. -/
theorem play_failure_leaves_engine_state_witness :
    (sLoadedA.playSFX "nope" optsNone true = (none, sLoadedA)) ∧
    ((sLoadedA.playSFX "a" optsNone false).1 = none ∧
     (sLoadedA.playSFX "a" optsNone false).2.activeSources
       = sLoadedA.activeSources ++ [sLoadedA.nextId]) :=
  ⟨(play_failure_leaves_engine_state_amended sLoadedA "nope" optsNone true 0).1
      (Or.inr rfl),
   (play_failure_leaves_engine_state_amended sLoadedA "a" optsNone true 1).2.2.1
      rfl rfl⟩

/-- C2 (counterexample): after `setVolume('master', 50)` on a freshly
initialized session, the gain applied along the music signal path from
instance to output is 1/4, not the claimed
`(volumes.music/100) * (volumes.master/100) = 1/2`: `updateVolumes`
(lines 354-360) pre-multiplies the master scalar into each bus node *and*
writes it to the master node, so the chain
`musicGain -> masterGain` applies it twice. -/
theorem effective_gain_master_squared_cex :
    (sReady.setVolume Bus.master 50).effectivePathGain Bus.music
      = some (1 / 4) ∧
    (sReady.setVolume Bus.master 50).getVolume Bus.music / 100 *
      ((sReady.setVolume Bus.master 50).getVolume Bus.master / 100) = 1 / 2 ∧
    (sReady.setVolume Bus.master 50).effectivePathGain Bus.music
      ≠ some ((sReady.setVolume Bus.master 50).getVolume Bus.music / 100 *
          ((sReady.setVolume Bus.master 50).getVolume Bus.master / 100)) := by
  norm_num [sReady, AudioMark.new, AudioMark.init, AudioMark.updateVolumes,
    AudioMark.setVolume, AudioMark.getVolume, Volumes.set, Volumes.get,
    AudioMark.effectivePathGain, max_def, min_def]

/-- C2 (amended): after any `setVolume` on an initialized session, the
effective gain along bus b's path from instance to output is
`(volumes[b]/100) * (volumes[master]/100)^2` — the master scalar enters
once pre-multiplied into the bus node and once at the master node — and
setting the sfx volume never changes the effective music gain, nor vice
versa. -/
theorem effective_gain_after_setVolume (s : AudioMark) (b : Bus) (v w : ℚ)
    (hinit : s.isInitialized = true) :
    (s.setVolume b v).effectivePathGain Bus.music
      = some ((s.setVolume b v).volumes.music / 100 *
          ((s.setVolume b v).volumes.master / 100 *
           ((s.setVolume b v).volumes.master / 100))) ∧
    (s.setVolume b v).effectivePathGain Bus.sfx
      = some ((s.setVolume b v).volumes.sfx / 100 *
          ((s.setVolume b v).volumes.master / 100 *
           ((s.setVolume b v).volumes.master / 100))) ∧
    ((s.setVolume b v).setVolume Bus.sfx w).effectivePathGain Bus.music
      = (s.setVolume b v).effectivePathGain Bus.music ∧
    ((s.setVolume b v).setVolume Bus.music w).effectivePathGain Bus.sfx
      = (s.setVolume b v).effectivePathGain Bus.sfx := by
  cases b <;>
    simp [AudioMark.setVolume, AudioMark.updateVolumes, Volumes.set,
      AudioMark.effectivePathGain, hinit] <;>
    ring_nf <;> exact ⟨trivial, trivial⟩

/-- C2 witness: the amended gain law evaluated at `setVolume('master', 50)`
on a freshly initialized session (with a follow-up sfx/music write of 30). -/
theorem effective_gain_after_setVolume_witness :
    sReady.isInitialized = true ∧
    ((sReady.setVolume Bus.master 50).effectivePathGain Bus.music
      = some ((sReady.setVolume Bus.master 50).volumes.music / 100 *
          ((sReady.setVolume Bus.master 50).volumes.master / 100 *
           ((sReady.setVolume Bus.master 50).volumes.master / 100))) ∧
    (sReady.setVolume Bus.master 50).effectivePathGain Bus.sfx
      = some ((sReady.setVolume Bus.master 50).volumes.sfx / 100 *
          ((sReady.setVolume Bus.master 50).volumes.master / 100 *
           ((sReady.setVolume Bus.master 50).volumes.master / 100))) ∧
    ((sReady.setVolume Bus.master 50).setVolume Bus.sfx 30).effectivePathGain Bus.music
      = (sReady.setVolume Bus.master 50).effectivePathGain Bus.music ∧
    ((sReady.setVolume Bus.master 50).setVolume Bus.music 30).effectivePathGain Bus.sfx
      = (sReady.setVolume Bus.master 50).effectivePathGain Bus.sfx) :=
  ⟨rfl, effective_gain_after_setVolume sReady Bus.master 50 30 rfl⟩

theorem Volumes.set_set (vol : Volumes) (b : Bus) (x y : ℚ) :
    (vol.set b x).set b y = vol.set b y := by
  cases b <;> rfl

theorem setVolume_volumes (s : AudioMark) (b : Bus) (v : ℚ) :
    (s.setVolume b v).volumes = s.volumes.set b (max 0 (min 100 v)) := by
  unfold AudioMark.setVolume
  exact updateVolumes_volumes _

/-- C6: for every bus and every value, `getVolume` after `setVolume(b, v)`
returns `clamp(v, 0, 100)` (line 334) — out-of-range input is silently
clamped, `setVolume` is total (it has no error result), and repeating the
same `setVolume` call leaves the state, in particular the stored scalar,
unchanged. -/
theorem setVolume_clamps_and_idempotent (s : AudioMark) (b : Bus) (v : ℚ) :
    (s.setVolume b v).getVolume b = max 0 (min 100 v) ∧
    (s.setVolume b v).setVolume b v = s.setVolume b v := by
  constructor
  · show ((s.setVolume b v).volumes).get b = _
    rw [setVolume_volumes]
    cases b <;> rfl
  · have h1 : (s.setVolume b v).volumes.set b (max 0 (min 100 v))
        = (s.setVolume b v).volumes := by
      rw [setVolume_volumes, Volumes.set_set]
    calc (s.setVolume b v).setVolume b v
        = AudioMark.updateVolumes
            { s.setVolume b v with
                volumes := (s.setVolume b v).volumes.set b (max 0 (min 100 v)) } := rfl
      _ = AudioMark.updateVolumes
            { s.setVolume b v with volumes := (s.setVolume b v).volumes } := by rw [h1]
      _ = AudioMark.updateVolumes (s.setVolume b v) := rfl
      _ = s.setVolume b v := by
            show AudioMark.updateVolumes
              (AudioMark.updateVolumes
                { s with volumes := s.volumes.set b (max 0 (min 100 v)) }) = _
            rw [updateVolumes_idem]
            rfl

/-- C6 witness: clamping and idempotence evaluated at the out-of-range
write `setVolume('music', 150)` on a freshly initialized session. -/
theorem setVolume_clamps_and_idempotent_witness :
    (sReady.setVolume Bus.music 150).getVolume Bus.music
      = max 0 (min 100 150) ∧
    (sReady.setVolume Bus.music 150).setVolume Bus.music 150
      = sReady.setVolume Bus.music 150 :=
  setVolume_clamps_and_idempotent sReady Bus.music 150

/-! ## Fades -/

theorem mem_applyFade_of_ne (id : Nat) (g : GainNode) {l : List SourceNode}
    {n : SourceNode} (hn : n ∈ l) (h : n.id ≠ id) : n ∈ applyFade id g l := by
  unfold applyFade
  refine List.mem_map.2 ⟨n, hn, ?_⟩
  show (if n.id = id then { n with route := Route.viaFadeGain g } else n) = n
  rw [if_neg h]

theorem applyFade_route (id : Nat) (g : GainNode) (l : List SourceNode) :
    ∀ n ∈ applyFade id g l, n.id = id → n.route = Route.viaFadeGain g := by
  intro n hn hid
  rcases List.mem_map.1 hn with ⟨m, hm, rfl⟩
  by_cases h : m.id = id
  · simp [h]
  · rw [if_neg h] at hid
    exact absurd hid h

theorem fadeOut_unfold (s : AudioMark) (id : Nat) (d : ℚ)
    (hinit : s.isInitialized = true) :
    s.fadeOut (some id) d
      = { s with sources := applyFade id (fadeGainNode s.currentTime d) s.sources,
                 pendingStops := s.pendingStops ++ [(id, d)] } := by
  simp [AudioMark.fadeOut, hinit]

/-- C4 (counterexample): the instance of `sSfxHalf` is playing with gain
1/2 (its `options.volume`), yet `fadeOut` ramps the (fresh) gain stage
down from 1.0 (line 380), not from the instance's current gain value:
after the call the pending ramp starts at 1, not 1/2. -/
theorem fadeOut_ramp_start_cex :
    ((sSfxHalf.findSource 0).map fun n => n.route.gainValue) = some (1 / 2) ∧
    (((sSfxHalf.fadeOut (some 0) 2).findSource 0).bind
        fun n => n.route.rampStart?) = some 1 ∧
    (((sSfxHalf.fadeOut (some 0) 2).findSource 0).bind
        fun n => n.route.rampStart?)
      ≠ ((sSfxHalf.findSource 0).map fun n => n.route.gainValue) := by
  refine ⟨rfl, rfl, ?_⟩
  show some (1 : ℚ) ≠ some (1 / 2)
  norm_num

/-- C4 (amended): on an initialized session, `fadeOut(instance, d)`
re-routes the instance through a fresh gain stage whose gain is set to
1.0 at the call's host time and ramped linearly to 0 over `d` seconds —
starting from 1.0 regardless of the instance's previous gain — and
schedules a deferred stop of the instance `d` seconds after the call. -/
theorem fadeOut_fresh_ramp_and_stop_amended (s : AudioMark) (id : Nat)
    (d : ℚ) (hinit : s.isInitialized = true) :
    (∀ n ∈ (s.fadeOut (some id) d).sources, n.id = id →
       n.route = Route.viaFadeGain
         { value := 1,
           ramp := some { startValue := 1, startTime := s.currentTime,
                          endValue := 0, endTime := s.currentTime + d } }) ∧
    (s.fadeOut (some id) d).pendingStops = s.pendingStops ++ [(id, d)] := by
  rw [fadeOut_unfold s id d hinit]
  exact ⟨applyFade_route id (fadeGainNode s.currentTime d) s.sources, rfl⟩

/-- C4 witness: the amended fade law evaluated on `sSfxHalf`'s instance 0
with a 2-second fade. -/
theorem fadeOut_fresh_ramp_and_stop_witness :
    sSfxHalf.isInitialized = true ∧
    ((∀ n ∈ (sSfxHalf.fadeOut (some 0) 2).sources, n.id = 0 →
        n.route = Route.viaFadeGain
          { value := 1,
            ramp := some { startValue := 1, startTime := sSfxHalf.currentTime,
                           endValue := 0,
                           endTime := sSfxHalf.currentTime + 2 } }) ∧
     (sSfxHalf.fadeOut (some 0) 2).pendingStops
       = sSfxHalf.pendingStops ++ [(0, 2)]) :=
  ⟨rfl, fadeOut_fresh_ramp_and_stop_amended sSfxHalf 0 2 rfl⟩

/-- C10: on an initialized session, every instance `fadeOut` touches —
whatever bus its per-instance gain fed before — ends up re-routed through
a fresh fade gain node whose output feeds the *music* bus (line 378:
`gainNode.connect(this.musicGain)`), so for the remainder of the fade an
sfx instance is governed by the music volume scalar. -/
theorem fadeOut_reroutes_to_music_bus (s : AudioMark) (id : Nat) (d : ℚ)
    (hinit : s.isInitialized = true) :
    ∀ n ∈ (s.fadeOut (some id) d).sources, n.id = id →
      (∃ g : GainNode, n.route = Route.viaFadeGain g) ∧
      n.route.bus = Bus.music := by
  rw [fadeOut_unfold s id d hinit]
  intro n hn hid
  have hr := applyFade_route id (fadeGainNode s.currentTime d) s.sources n hn hid
  exact ⟨⟨fadeGainNode s.currentTime d, hr⟩, by rw [hr]; rfl⟩

/-- C10 witness: `sSfxHalf`'s instance 0 fed the sfx bus before the fade;
after `fadeOut` it sits behind a fade gain node feeding the music bus. -/
theorem fadeOut_reroutes_to_music_bus_witness :
    sSfxHalf.isInitialized = true ∧
    ((sSfxHalf.findSource 0).map fun n => n.route.bus) = some Bus.sfx ∧
    nodeAafterFade ∈ (sSfxHalf.fadeOut (some 0) 2).sources ∧
    ((∃ g : GainNode, nodeAafterFade.route = Route.viaFadeGain g) ∧
     nodeAafterFade.route.bus = Bus.music) :=
  ⟨rfl, rfl, List.Mem.head _,
   fadeOut_reroutes_to_music_bus sSfxHalf 0 2 rfl nodeAafterFade
     (List.Mem.head _) rfl⟩

/-! ## Resume and transition -/

/-- C7: whenever `resumeMusic()` succeeds on a paused session — paused
flag set, session record present, its track still registered with buffer
duration `dur` — the recreated instance is started at offset
`elapsed % dur` for a looping track and `elapsed` otherwise, where
`elapsed = musicPauseTime - startTime` (lines 278, 288-289), and the
session record is repointed at the recreated instance. -/
theorem resumeMusic_offset_spec (s : AudioMark) (cm : CurrentMusic) (dur : ℚ)
    (hcm : s.currentMusic = some cm) (hp : s.isMusicPaused = true)
    (hbuf : lookupBuf cm.name s.audioBuffers = some dur) :
    (s.resumeMusic).1 = true ∧
    ((s.resumeMusic).2.currentMusic).map (fun c => c.source) = some s.nextId ∧
    ({ id := s.nextId, bufferName := cm.name, bufferDuration := dur,
       loop := cm.loop,
       startOffset := if cm.loop then jsMod (s.musicPauseTime - cm.startTime) dur
                      else s.musicPauseTime - cm.startTime,
       route := Route.direct, stopped := false } : SourceNode)
      ∈ (s.resumeMusic).2.sources := by
  unfold AudioMark.resumeMusic
  rw [hcm]
  simp [hp, hbuf]

/-- C7 witness: the paused looping session `sPausedLoop` (track `"a"`,
duration 2, elapsed 3 at the pause) resumes successfully at offset
`jsMod 3 2 = 1`. -/
theorem resumeMusic_offset_witness :
    sPausedLoop.currentMusic = some cmA ∧
    sPausedLoop.isMusicPaused = true ∧
    lookupBuf cmA.name sPausedLoop.audioBuffers = some 2 ∧
    ((sPausedLoop.resumeMusic).1 = true ∧
     ((sPausedLoop.resumeMusic).2.currentMusic).map (fun c => c.source)
       = some sPausedLoop.nextId ∧
     ({ id := sPausedLoop.nextId, bufferName := cmA.name, bufferDuration := 2,
        loop := cmA.loop,
        startOffset := if cmA.loop then
            jsMod (sPausedLoop.musicPauseTime - cmA.startTime) 2
          else sPausedLoop.musicPauseTime - cmA.startTime,
        route := Route.direct, stopped := false } : SourceNode)
       ∈ (sPausedLoop.resumeMusic).2.sources) ∧
    jsMod (sPausedLoop.musicPauseTime - cmA.startTime) 2 = 1 :=
  ⟨rfl, rfl, rfl, resumeMusic_offset_spec sPausedLoop cmA 2 rfl rfl rfl,
   by
    have h : Int.tdiv 3 2 = 1 := by decide
    norm_num [jsMod, ratTrunc, sPausedLoop, cmA, AudioMark.new, h]⟩

/-- C5: `transitionMusic(newName, t, options)` fails (returns `false`)
without starting anything when `newName` is unregistered (lines 403-406);
otherwise it starts the new track through `playMusic` with
`fadeIn = t` and `stopCurrent: false` — so the captured previous music
instance and the new one coexist in `activeMusicSources` — and then
fades the previous instance (captured before the play call) out over the
same `t`: its route is replaced by a 1-to-0 ramp over `[now, now+t]` and
a deferred stop at `t` seconds is scheduled, while the new instance
carries the 0-to-volume fade-in ramp over the same window. -/
theorem transitionMusic_crossfade_spec (s : AudioMark) (newName : String)
    (t : ℚ) (opts : JsOptions) (cm : CurrentMusic) (dur : ℚ)
    (hinit : s.isInitialized = true)
    (hbuf : lookupBuf newName s.audioBuffers = some dur)
    (hcm : s.currentMusic = some cm)
    (hmem : cm.source ∈ s.activeMusicSources)
    (hne : cm.source ≠ s.nextId)
    (ht : 0 < t) :
    (∀ nm, lookupBuf nm s.audioBuffers = none →
       s.transitionMusic nm t opts true = (false, s)) ∧
    (s.transitionMusic newName t opts true).1 = true ∧
    ((s.transitionMusic newName t opts true).2.currentMusic).map
        (fun c => c.name) = some newName ∧
    ({ id := s.nextId, bufferName := newName, bufferDuration := dur,
       loop := opts.loop.getD true, startOffset := 0,
       route := Route.viaInstGain
         { value := 0,
           ramp := some { startValue := 0, startTime := s.currentTime,
                          endValue := jsOr opts.volume 1,
                          endTime := s.currentTime + t } } Bus.music,
       stopped := false } : SourceNode)
      ∈ (s.transitionMusic newName t opts true).2.sources ∧
    (∀ n ∈ (s.transitionMusic newName t opts true).2.sources,
       n.id = cm.source →
       n.route = Route.viaFadeGain (fadeGainNode s.currentTime t)) ∧
    (s.transitionMusic newName t opts true).2.pendingStops
      = s.pendingStops ++ [(cm.source, t)] ∧
    cm.source ∈ (s.transitionMusic newName t opts true).2.activeMusicSources ∧
    s.nextId ∈ (s.transitionMusic newName t opts true).2.activeMusicSources := by
  have hfail : ∀ nm, lookupBuf nm s.audioBuffers = none →
      s.transitionMusic nm t opts true = (false, s) := by
    intro nm h
    simp [AudioMark.transitionMusic, h]
  have hr : s.playMusic newName
      { opts with fadeIn := some t, volume := some (jsOr opts.volume 1),
                  stopCurrent := some false } true
      = (some s.nextId,
         { s with
             sources := s.sources ++
               [{ id := s.nextId, bufferName := newName, bufferDuration := dur,
                  loop := opts.loop.getD true, startOffset := 0,
                  route := Route.viaInstGain
                    { value := 0,
                      ramp := some { startValue := 0, startTime := s.currentTime,
                                     endValue := jsOr opts.volume 1,
                                     endTime := s.currentTime + t } } Bus.music,
                  stopped := false }],
             activeSources := s.activeSources ++ [s.nextId],
             nextId := s.nextId + 1,
             currentMusic := some { source := s.nextId, name := newName,
                                    startTime := s.currentTime,
                                    loop := opts.loop.getD true },
             isMusicPaused := false,
             activeMusicSources := s.activeMusicSources ++ [s.nextId] }) := by
    unfold AudioMark.playMusic AudioMark.playAudio
    simp [hinit, hbuf, ht]
  have key : s.transitionMusic newName t opts true
      = (true,
         (s.playMusic newName
            { opts with fadeIn := some t, volume := some (jsOr opts.volume 1),
                        stopCurrent := some false } true).2.fadeOut
           (some cm.source) t) := by
    unfold AudioMark.transitionMusic
    rw [hcm]
    simp [hbuf]
  rw [key, hr]
  simp only [AudioMark.fadeOut, hinit, Bool.not_true, Bool.false_eq_true,
    if_false, Option.map_some]
  refine ⟨hfail, ?_, ?_, ?_, ?_, ?_, ?_, ?_⟩
  · trivial
  · trivial
  · exact mem_applyFade_of_ne cm.source _
      (List.mem_append_right _ (List.mem_singleton_self _)) (Ne.symm hne)
  · exact applyFade_route cm.source _ _
  · trivial
  · exact List.mem_append_left _ hmem
  · exact List.mem_append_right _ (List.mem_singleton_self _)

/-- C5 witness: on `sPlayingA` (track `"a"` playing as instance 0, track
`"b"` of duration 3 registered) a 2-second transition to `"b"` succeeds,
repoints the session at `"b"`, schedules the deferred stop of instance 0,
and leaves both instances in `activeMusicSources`. -/
theorem transitionMusic_crossfade_witness :
    sPlayingA.isInitialized = true ∧
    lookupBuf "b" sPlayingA.audioBuffers = some 3 ∧
    sPlayingA.currentMusic = some cmA ∧
    cmA.source ∈ sPlayingA.activeMusicSources ∧
    cmA.source ≠ sPlayingA.nextId ∧
    (0 : ℚ) < 2 ∧
    ((sPlayingA.transitionMusic "b" 2 optsNone true).1 = true ∧
     ((sPlayingA.transitionMusic "b" 2 optsNone true).2.currentMusic).map
         (fun c => c.name) = some "b" ∧
     (sPlayingA.transitionMusic "b" 2 optsNone true).2.pendingStops
       = sPlayingA.pendingStops ++ [(cmA.source, 2)] ∧
     cmA.source ∈ (sPlayingA.transitionMusic "b" 2 optsNone true).2.activeMusicSources ∧
     sPlayingA.nextId
       ∈ (sPlayingA.transitionMusic "b" 2 optsNone true).2.activeMusicSources) := by
  have h := transitionMusic_crossfade_spec sPlayingA "b" 2 optsNone cmA 3
    rfl rfl rfl (List.Mem.head _) (by decide) (by norm_num)
  exact ⟨rfl, rfl, rfl, List.Mem.head _, by decide, by norm_num,
    h.2.1, h.2.2.1, h.2.2.2.2.2.1, h.2.2.2.2.2.2.1, h.2.2.2.2.2.2.2⟩
